import Mathlib

/-!
Shallow embedding of the firebase-bank-buddy transaction logic.

The repository implements the deposit/withdraw flow in three places:
- `handleTransaction` in the BankingOperations component (src/unnamed/part_000),
  together with its callers `handleDepositSubmit` and `handleWithdrawSubmit`;
- `handleDeposit` and `handleWithdraw` in src/src/pages/Dashboard.tsx;
- the Transactions page (src/src/pages/Transactions.tsx) provides the
  read/report logic (summary counts over the transaction history).

The persistent store is two tables (src/unnamed/part_005):
`profiles` (with `balance DECIMAL(12,2)` and a CHECK on `account_type`)
and `transactions` (with a CHECK on `transaction_type`).

Monetary values are modelled as `Int` (exact fixed-point decimals in minor
units); the store is a balance plus the list of transaction rows in creation
order.  Each round trip to the store may fail; a `StoreOracle` fixes which of
the three store accesses of a call succeed, so that partial failures can be
analysed.  Outcomes mirror the user-visible result of each handler (the toast
it fires and whether it reports success).
-/

/-- The two transaction kinds the writers use: the string literals
`deposit` and `withdraw` (src/unnamed/part_000 line 27). -/
inductive TxType where
  | deposit
  | withdraw
  deriving DecidableEq

/-- String literal stored in the `transaction_type` column for each kind. -/
def txTypeStr : TxType → String
  | TxType.deposit => "deposit"
  | TxType.withdraw => "withdraw"

/-- Display label used in descriptions and toasts:
`type === 'deposit' ? 'Deposit' : 'Withdrawal'` (part_000 line 89). -/
def txTypeLabel : TxType → String
  | TxType.deposit => "Deposit"
  | TxType.withdraw => "Withdrawal"

/-- A row of the `transactions` table, fields as inserted by the writers
(part_000 lines 83-93, Dashboard.tsx lines 93-101 and 151-159). -/
structure TxRecord where
  amount : Int
  transaction_type : String
  description : String
  balance_after : Int
  deriving DecidableEq

/-- The persistent state for one owner: the `balance` column of the
`profiles` row and the owner's `transactions` rows in creation order
(oldest first). -/
structure Store where
  balance : Int
  transactions : List TxRecord
  deriving DecidableEq

/-- User-visible outcome of one handler call: which toast fires.
`success` is the success toast, `insufficientFunds` the
Insufficient Funds toast, `validationError` the Invalid Amount toast and
`storeError` the generic error toast of the catch block.
`reconciliation` is the distinct partial-failure report the specification
demands; no code path produces it. -/
inductive Outcome where
  | success (newBalance : Int)
  | insufficientFunds
  | validationError
  | storeError
  | reconciliation
  deriving DecidableEq

/-- Whether each of the three store round trips of a call succeeds:
the balance fetch, the balance update and the record insert. -/
structure StoreOracle where
  fetchOk : Bool
  updateOk : Bool
  insertOk : Bool
  deriving DecidableEq

/-- The oracle of a run with no persistence failures. -/
def allOk : StoreOracle := { fetchOk := true, updateOk := true, insertOk := true }

/-- Signed amount of a transaction: positive for deposits, negative for
withdrawals. -/
def signedAmount (type : TxType) (amount : Int) : Int :=
  match type with
  | TxType.deposit => amount
  | TxType.withdraw => -amount

/-- The `handleTransaction` function of the BankingOperations component
(src/unnamed/part_000 lines 26-111).  `currentBalance` is the prop the
caller passes (a snapshot of the balance); the function then re-reads the
authoritative balance from the store, checks funds for withdrawals, updates
the balance and inserts the transaction record.  A failed store access
throws, is caught, and surfaces the generic error toast; writes already
performed are not rolled back. -/
def handleTransaction (currentBalance : Int) (type : TxType) (amount : Int)
    (description : String) (ora : StoreOracle) (store : Store) : Store × Outcome :=
  let newBalance := if type = TxType.deposit then currentBalance + amount else currentBalance - amount
  if type = TxType.withdraw ∧ newBalance < 0 then
    (store, Outcome.insufficientFunds)
  else if ora.fetchOk = false then
    (store, Outcome.storeError)
  else
    let updatedBalance := if type = TxType.deposit then store.balance + amount else store.balance - amount
    if type = TxType.withdraw ∧ updatedBalance < 0 then
      (store, Outcome.insufficientFunds)
    else if ora.updateOk = false then
      (store, Outcome.storeError)
    else
      let store1 : Store := { store with balance := updatedBalance }
      if ora.insertOk = false then
        (store1, Outcome.storeError)
      else
        let record : TxRecord :=
          { amount := amount
            transaction_type := txTypeStr type
            description := if description = "" then txTypeLabel type ++ " transaction" else description
            balance_after := updatedBalance }
        ({ store1 with transactions := store1.transactions ++ [record] },
         Outcome.success updatedBalance)

/-- The `handleDepositSubmit` handler of the BankingOperations component
(part_000 lines 113-130): rejects `amount ≤ 0` before calling
`handleTransaction`. -/
def handleDepositSubmit (currentBalance : Int) (amount : Int) (description : String)
    (ora : StoreOracle) (store : Store) : Store × Outcome :=
  if amount ≤ 0 then
    (store, Outcome.validationError)
  else
    handleTransaction currentBalance TxType.deposit amount description ora store

/-- The `handleWithdrawSubmit` handler of the BankingOperations component
(part_000 lines 132-158): rejects `amount ≤ 0`, then `amount > currentBalance`,
before calling `handleTransaction`. -/
def handleWithdrawSubmit (currentBalance : Int) (amount : Int) (description : String)
    (ora : StoreOracle) (store : Store) : Store × Outcome :=
  if amount ≤ 0 then
    (store, Outcome.validationError)
  else if currentBalance < amount then
    (store, Outcome.insufficientFunds)
  else
    handleTransaction currentBalance TxType.withdraw amount description ora store

/-- The `handleDeposit` handler of src/src/pages/Dashboard.tsx
(lines 75-122).  It computes the new balance from the cached
`profile.balance` React state (no re-read of the store at mutation time) and
performs no amount validation before writing. -/
def handleDeposit (profileBalance : Int) (amount : Int)
    (ora : StoreOracle) (store : Store) : Store × Outcome :=
  let newBalance := profileBalance + amount
  if ora.updateOk = false then
    (store, Outcome.storeError)
  else
    let store1 : Store := { store with balance := newBalance }
    if ora.insertOk = false then
      (store1, Outcome.storeError)
    else
      let record : TxRecord :=
        { amount := amount
          transaction_type := "deposit"
          description := "Account Deposit"
          balance_after := newBalance }
      ({ store1 with transactions := store1.transactions ++ [record] },
       Outcome.success newBalance)

/-- A deposit or withdrawal request, as submitted through the
BankingOperations forms. -/
inductive Request where
  | deposit (amount : Int) (description : String)
  | withdraw (amount : Int) (description : String)
  deriving DecidableEq

/-- Signed amount of a request. -/
def signedOf : Request → Int
  | Request.deposit a _ => a
  | Request.withdraw a _ => -a

/-- One sequential `handleTransaction` call for a request: the snapshot prop
equals the stored balance (the component refreshes it between calls via
`onBalanceUpdate`) and the store functions (no persistence failures). -/
def applyRequest (s : Store) (r : Request) : Store × Outcome :=
  match r with
  | Request.deposit a d => handleTransaction s.balance TxType.deposit a d allOk s
  | Request.withdraw a d => handleTransaction s.balance TxType.withdraw a d allOk s

/-- Sequential execution of a list of requests against the store. -/
def runRequests (s : Store) : List Request → Store
  | [] => s
  | r :: rs => runRequests (applyRequest s r).1 rs

/-- Whether an outcome reports success. -/
def isSuccess (o : Outcome) : Bool :=
  match o with
  | Outcome.success _ => true
  | _ => false

/-- Sum of the signed amounts of the requests that succeed when the list is
executed sequentially from state `s`. -/
def sumSucceeded (s : Store) : List Request → Int
  | [] => 0
  | r :: rs =>
    (if isSuccess (applyRequest s r).2 then signedOf r else 0) +
      sumSucceeded (applyRequest s r).1 rs

/-- Signed amount of a stored transaction record (a `deposit` row counts
positively, anything else negatively), as the replay invariant reads it. -/
def signedRec (r : TxRecord) : Int :=
  if r.transaction_type = "deposit" then r.amount else -r.amount

/-- Replaying records in creation order: fold signed amounts over an initial
balance. -/
def replay (b0 : Int) (l : List TxRecord) : Int :=
  l.foldl (fun b r => b + signedRec r) b0

/-- The CHECK constraint on `transactions.transaction_type`
(src/unnamed/part_005 line 18): only `deposit` and `withdraw` are admitted. -/
def transactionTypeCheck (s : String) : Bool :=
  s == "deposit" || s == "withdraw"

/-- The Total Withdrawals summary of src/src/pages/Transactions.tsx
(line 177): it counts records whose `transaction_type` equals the string
`withdrawal`. -/
def totalWithdrawalsCount (l : List TxRecord) : Nat :=
  (l.filter (fun t => t.transaction_type == "withdrawal")).length

/-- With no persistence failures, a deposit through `handleTransaction`
always succeeds: the new balance is the re-read store balance plus the
amount, and one record is appended. -/
lemma ht_deposit (cb a : Int) (d : String) (s : Store) :
    handleTransaction cb TxType.deposit a d allOk s =
      ({ balance := s.balance + a,
         transactions := s.transactions ++
           [{ amount := a, transaction_type := "deposit",
              description := if d = "" then "Deposit transaction" else d,
              balance_after := s.balance + a }] },
       Outcome.success (s.balance + a)) := by
  simp [handleTransaction, allOk, txTypeStr, txTypeLabel]

/-- With no persistence failures, a withdrawal through `handleTransaction`
is rejected when the snapshot or the re-read balance would go negative, and
otherwise succeeds with the re-read balance minus the amount. -/
lemma ht_withdraw (cb a : Int) (d : String) (s : Store) :
    handleTransaction cb TxType.withdraw a d allOk s =
      (if cb < a then (s, Outcome.insufficientFunds)
       else if s.balance < a then (s, Outcome.insufficientFunds)
       else
        ({ balance := s.balance - a,
           transactions := s.transactions ++
             [{ amount := a, transaction_type := "withdraw",
                description := if d = "" then "Withdrawal transaction" else d,
                balance_after := s.balance - a }] },
         Outcome.success (s.balance - a))) := by
  by_cases h1 : cb < a <;> by_cases h2 : s.balance < a <;>
    simp [handleTransaction, allOk, txTypeStr, txTypeLabel, sub_neg, h1, h2]

/-- Replaying a history with one more record appends that record's signed
amount at the end of the fold. -/
lemma replay_append (b0 : Int) (l : List TxRecord) (r : TxRecord) :
    replay b0 (l ++ [r]) = replay b0 l + signedRec r := by
  simp [replay, List.foldl_append]

/-- Effect of one sequential request: the balance moves by the signed amount
exactly when the call succeeds, and the log grows by the record of the call
exactly when it succeeds. -/
lemma applyRequest_balance (s : Store) (r : Request) :
    (applyRequest s r).1.balance =
      s.balance + (if isSuccess (applyRequest s r).2 then signedOf r else 0) := by
  cases r with
  | deposit a d =>
    simp [applyRequest, ht_deposit, isSuccess, signedOf]
  | withdraw a d =>
    by_cases h : s.balance < a <;>
      simp [applyRequest, ht_withdraw, h, isSuccess, signedOf, sub_eq_add_neg]

/-- A rejected sequential request leaves the store unchanged. -/
lemma applyRequest_reject (s : Store) (r : Request)
    (h : isSuccess (applyRequest s r).2 = false) : (applyRequest s r).1 = s := by
  cases r with
  | deposit a d =>
    simp [applyRequest, ht_deposit, isSuccess] at h
  | withdraw a d =>
    by_cases hb : s.balance < a
    · simp [applyRequest, ht_withdraw, hb]
    · simp [applyRequest, ht_withdraw, hb, isSuccess] at h

/-- One sequential request preserves the replay invariant: if folding the
stored records over `b0` yields the stored balance, the same holds after the
request. -/
lemma applyRequest_replay (s : Store) (r : Request) (b0 : Int)
    (h : replay b0 s.transactions = s.balance) :
    replay b0 (applyRequest s r).1.transactions = (applyRequest s r).1.balance := by
  cases r with
  | deposit a d =>
    simp only [applyRequest, ht_deposit]
    rw [replay_append, h]
    simp [signedRec]
  | withdraw a d =>
    by_cases hb : s.balance < a
    · simpa [applyRequest, ht_withdraw, hb] using h
    · simp only [applyRequest, ht_withdraw, hb, if_false, if_neg]
      rw [replay_append, h]
      simp [signedRec, sub_eq_add_neg]

/-- Conservation over a sequential run, generalised over the start state. -/
lemma runRequests_balance (rs : List Request) :
    ∀ s : Store, (runRequests s rs).balance = s.balance + sumSucceeded s rs := by
  induction rs with
  | nil => intro s; simp [runRequests, sumSucceeded]
  | cons r rs ih =>
    intro s
    have hb := applyRequest_balance s r
    simp only [runRequests, sumSucceeded]
    rw [ih (applyRequest s r).1, hb]
    ring

/-- The replay invariant is preserved by a whole sequential run. -/
lemma runRequests_replay (rs : List Request) :
    ∀ s : Store, ∀ b0 : Int, replay b0 s.transactions = s.balance →
      replay b0 (runRequests s rs).transactions = (runRequests s rs).balance := by
  induction rs with
  | nil => intro s b0 h; simpa [runRequests] using h
  | cons r rs ih =>
    intro s b0 h
    exact ih (applyRequest s r).1 b0 (applyRequest_replay s r b0 h)

/-- C1 (conservation and replay): executing any sequence of deposit or
withdraw requests sequentially through the BankingOperations
`handleTransaction`, starting from balance `B0` with an empty history and
with the store functioning, leaves a final stored balance equal to `B0` plus
the sum of the signed amounts of the calls that succeeded, and replaying the
persisted transaction records in creation order over `B0` reproduces that
final balance. -/
theorem conservation_and_replay (b0 : Int) (rs : List Request) :
    (runRequests { balance := b0, transactions := [] } rs).balance =
      b0 + sumSucceeded { balance := b0, transactions := [] } rs ∧
    replay b0 (runRequests { balance := b0, transactions := [] } rs).transactions =
      (runRequests { balance := b0, transactions := [] } rs).balance := by
  constructor
  · exact runRequests_balance rs { balance := b0, transactions := [] }
  · exact runRequests_replay rs { balance := b0, transactions := [] } b0 (by simp [replay])

/-- C2 (no-overdraft): with the snapshot prop equal to the stored balance
and the store functioning, a withdrawal through `handleTransaction` is
accepted exactly when the amount is at most the account's current balance,
and a rejected withdrawal leaves the store (balance and log) unchanged. -/
theorem withdraw_accept_iff (a : Int) (d : String) (s : Store) :
    (isSuccess (handleTransaction s.balance TxType.withdraw a d allOk s).2 = true ↔
      a ≤ s.balance) ∧
    (isSuccess (handleTransaction s.balance TxType.withdraw a d allOk s).2 = false →
      (handleTransaction s.balance TxType.withdraw a d allOk s).1 = s) := by
  by_cases h : s.balance < a
  · constructor
    · simp only [ht_withdraw, if_pos h, isSuccess]
      constructor
      · intro hc
        exact absurd hc (by simp)
      · intro hle
        omega
    · intro _
      simp [ht_withdraw, h]
  · constructor
    · simp only [ht_withdraw, if_neg h, if_neg h, isSuccess]
      constructor
      · intro _
        omega
      · intro _
        trivial
    · intro hfail
      simp [ht_withdraw, h, isSuccess] at hfail

/-- Witness for `withdraw_accept_iff`: withdrawing 200 from a stored balance
of 100 is rejected and leaves the store unchanged. -/
theorem withdraw_accept_iff_witness :
    (handleTransaction (100 : Int) TxType.withdraw 200 "" allOk
      { balance := 100, transactions := [] }).1 =
      { balance := 100, transactions := [] } := by
  have h := withdraw_accept_iff 200 "" { balance := 100, transactions := [] }
  exact h.2 (by decide)

/-- C7 (memo default): a successful `handleTransaction` call with an empty
memo appends exactly one record whose description is the kind's display
label followed by the word transaction: `Deposit transaction` for deposits
and `Withdrawal transaction` for withdrawals. -/
theorem empty_memo_default (cb a : Int) (t : TxType) (s : Store)
    (h : isSuccess (handleTransaction cb t a "" allOk s).2 = true) :
    (handleTransaction cb t a "" allOk s).1.transactions =
      s.transactions ++
        [{ amount := a, transaction_type := txTypeStr t,
           description := txTypeLabel t ++ " transaction",
           balance_after := if t = TxType.deposit then s.balance + a else s.balance - a }] := by
  cases t with
  | deposit =>
    simp [ht_deposit, txTypeStr, txTypeLabel]
  | withdraw =>
    by_cases h1 : cb < a
    · simp [ht_withdraw, h1, isSuccess] at h
    · by_cases h2 : s.balance < a
      · simp [ht_withdraw, h1, h2, isSuccess] at h
      · simp [ht_withdraw, h1, h2, txTypeStr, txTypeLabel]

/-- Witness for `empty_memo_default`: a deposit of 100 with an empty memo on
balance 100 persists one record whose description is the string
`Deposit transaction`. -/
theorem empty_memo_default_witness :
    (handleTransaction (100 : Int) TxType.deposit 100 "" allOk
      { balance := 100, transactions := [] }).1.transactions =
      [{ amount := 100, transaction_type := "deposit",
         description := "Deposit transaction", balance_after := 200 }] := by
  have h := empty_memo_default 100 100 TxType.deposit
    { balance := 100, transactions := [] } (by decide)
  simpa [txTypeStr, txTypeLabel] using h

/-- Counterexample to C3: the Dashboard deposit handler called with the
non-positive amount -40 does not return a validation error and does write to
the store: the balance is persisted as 60 and a record is inserted. -/
theorem dashboardDeposit_nonpositive_counterexample :
    handleDeposit (100 : Int) (-40) allOk { balance := 100, transactions := [] } =
      ({ balance := 60,
         transactions := [{ amount := -40, transaction_type := "deposit",
                            description := "Account Deposit", balance_after := 60 }] },
       Outcome.success 60) ∧
    Outcome.success 60 ≠ Outcome.validationError ∧
    ({ balance := 60,
       transactions := [{ amount := -40, transaction_type := "deposit",
                          description := "Account Deposit", balance_after := 60 }] } : Store) ≠
      { balance := 100, transactions := [] } := by
  refine ⟨rfl, by decide, by decide⟩

/-- C3 amended: in the BankingOperations component, a deposit or withdrawal
submitted with a non-positive amount is rejected with a validation error
before any store access, for every snapshot, oracle and store state; the
Dashboard page's handlers perform no such validation. -/
theorem bankingOps_nonpositive_validation (cb a : Int) (d : String)
    (ora : StoreOracle) (s : Store) (h : a ≤ 0) :
    handleDepositSubmit cb a d ora s = (s, Outcome.validationError) ∧
    handleWithdrawSubmit cb a d ora s = (s, Outcome.validationError) := by
  constructor
  · simp [handleDepositSubmit, h]
  · simp [handleWithdrawSubmit, h]

/-- Witness for `bankingOps_nonpositive_validation` at amount 0. -/
theorem bankingOps_nonpositive_validation_witness :
    handleDepositSubmit (1000 : Int) 0 "" allOk { balance := 1000, transactions := [] } =
      ({ balance := 1000, transactions := [] }, Outcome.validationError) := by
  exact (bankingOps_nonpositive_validation 1000 0 "" allOk
    { balance := 1000, transactions := [] } (by decide)).1

/-- Counterexample to C4: the Dashboard deposit handler computes the
persisted balance from the cached profile snapshot (100), not from the
store's authoritative balance (200): depositing 50 persists 150, not 250. -/
theorem dashboardDeposit_cached_counterexample :
    (handleDeposit (100 : Int) 50 allOk { balance := 200, transactions := [] }).1.balance = 150 ∧
    (150 : Int) ≠ 200 + 50 := by
  refine ⟨rfl, by decide⟩

/-- C4 amended: the BankingOperations `handleTransaction` re-reads the
authoritative balance at mutation time and, on success, persists a balance
computed from that re-read value, whatever snapshot the caller supplied; the
Dashboard handlers instead compute the persisted balance from the cached
profile snapshot. -/
theorem handleTransaction_reread_balance (cb a : Int) (t : TxType) (d : String) (s : Store)
    (h : isSuccess (handleTransaction cb t a d allOk s).2 = true) :
    (handleTransaction cb t a d allOk s).1.balance = s.balance + signedAmount t a := by
  cases t with
  | deposit =>
    simp [ht_deposit, signedAmount]
  | withdraw =>
    by_cases h1 : cb < a
    · simp [ht_withdraw, h1, isSuccess] at h
    · by_cases h2 : s.balance < a
      · simp [ht_withdraw, h1, h2, isSuccess] at h
      · simp [ht_withdraw, h1, h2, signedAmount, sub_eq_add_neg]

/-- Witness for `handleTransaction_reread_balance`: with a stale snapshot of
100 and a stored balance of 200, a deposit of 50 persists 250. -/
theorem handleTransaction_reread_balance_witness :
    (handleTransaction (100 : Int) TxType.deposit 50 "" allOk
      { balance := 200, transactions := [] }).1.balance = 200 + 50 := by
  have h := handleTransaction_reread_balance 100 50 TxType.deposit ""
    { balance := 200, transactions := [] } (by decide)
  simpa [signedAmount] using h

/-- Counterexample to C5: the Dashboard deposit handler accepts a negative
amount and drives the persisted balance negative: depositing -400 on
balance 100 stores -300. -/
theorem dashboardDeposit_negative_balance_counterexample :
    (handleDeposit (100 : Int) (-400) allOk { balance := 100, transactions := [] }).1.balance =
      -300 ∧ ¬ (0 : Int) ≤ -300 := by
  refine ⟨rfl, by decide⟩

/-- Whatever the oracle, a `handleTransaction` call from a non-negative
stored balance leaves the stored balance non-negative, provided a deposit is
for a positive amount (withdrawals are guarded by the in-call funds check). -/
lemma ht_balance_nonneg (cb a : Int) (t : TxType) (d : String) (ora : StoreOracle)
    (s : Store) (h : 0 ≤ s.balance) (hdep : t = TxType.deposit → 0 < a) :
    0 ≤ (handleTransaction cb t a d ora s).1.balance := by
  obtain ⟨fo, uo, io⟩ := ora
  cases t <;> cases fo <;> cases uo <;> cases io <;>
    simp [handleTransaction] <;> (try split_ifs) <;> (try simp_all) <;> omega

/-- C5 amended: the BankingOperations flow preserves non-negativity of the
stored balance: starting from a non-negative stored balance, every
`handleDepositSubmit` and `handleWithdrawSubmit` call, for any amount,
snapshot and oracle, leaves the stored balance non-negative; the Dashboard
deposit handler performs no amount validation, and a negative amount can
drive the stored balance negative. -/
theorem bankingOps_balance_nonneg (cb a : Int) (d : String)
    (ora : StoreOracle) (s : Store) (h : 0 ≤ s.balance) :
    0 ≤ (handleDepositSubmit cb a d ora s).1.balance ∧
    0 ≤ (handleWithdrawSubmit cb a d ora s).1.balance := by
  constructor
  · by_cases ha : a ≤ 0
    · simpa [handleDepositSubmit, ha] using h
    · simp only [handleDepositSubmit, if_neg ha]
      exact ht_balance_nonneg cb a TxType.deposit d ora s h (fun _ => by omega)
  · by_cases ha : a ≤ 0
    · simpa [handleWithdrawSubmit, ha] using h
    · by_cases hcb : cb < a
      · simpa [handleWithdrawSubmit, ha, hcb] using h
      · simp only [handleWithdrawSubmit, if_neg ha, if_neg hcb]
        exact ht_balance_nonneg cb a TxType.withdraw d ora s h (fun hh => by cases hh)

/-- Witness for `bankingOps_balance_nonneg` at a deposit of 500 on
balance 1000. -/
theorem bankingOps_balance_nonneg_witness :
    0 ≤ (handleDepositSubmit (1000 : Int) 500 "" allOk
      { balance := 1000, transactions := [] }).1.balance := by
  exact (bankingOps_balance_nonneg 1000 500 "" allOk
    { balance := 1000, transactions := [] } (by decide)).1

/-- Every record a sequential run appends satisfies the transactions table's
CHECK constraint on `transaction_type`. -/
lemma runRequests_types (rs : List Request) :
    ∀ s : Store,
      (∀ t ∈ s.transactions, transactionTypeCheck t.transaction_type = true) →
      ∀ t ∈ (runRequests s rs).transactions, transactionTypeCheck t.transaction_type = true := by
  induction rs with
  | nil => intro s hs; simpa [runRequests] using hs
  | cons r rs ih =>
    intro s hs
    refine ih (applyRequest s r).1 ?_
    intro t ht
    cases r with
    | deposit a d =>
      rw [applyRequest] at ht
      rw [ht_deposit] at ht
      simp at ht
      rcases ht with ht | ht
      · exact hs t ht
      · simp [ht, transactionTypeCheck]
    | withdraw a d =>
      by_cases hb : s.balance < a
      · rw [applyRequest, ht_withdraw] at ht
        simp [hb] at ht
        exact hs t ht
      · rw [applyRequest, ht_withdraw] at ht
        simp [hb] at ht
        rcases ht with ht | ht
        · exact hs t ht
        · simp [ht, transactionTypeCheck]

/-- A history whose records all satisfy the CHECK constraint contains no
record counted by the Total Withdrawals filter. -/
lemma totalWithdrawals_of_check (l : List TxRecord)
    (h : ∀ t ∈ l, transactionTypeCheck t.transaction_type = true) :
    totalWithdrawalsCount l = 0 := by
  induction l with
  | nil => simp [totalWithdrawalsCount]
  | cons t l ih =>
    have ht := h t (by simp)
    have hrest : ∀ u ∈ l, transactionTypeCheck u.transaction_type = true := by
      intro u hu
      exact h u (by simp [hu])
    have hne : (t.transaction_type == "withdrawal") = false := by
      simp only [transactionTypeCheck, Bool.or_eq_true, beq_iff_eq] at ht
      rcases ht with ht | ht <;> simp [ht]
    have ihr := ih hrest
    simp only [totalWithdrawalsCount, List.filter] at ihr ⊢
    rw [hne]
    exact ihr

/-- C8 (withdrawal miscount): every record a run of the program's writers
persists has `transaction_type` admitted by the table's CHECK constraint
(`deposit` or `withdraw`); the literal `withdrawal` that the Transactions
page's Total Withdrawals summary filters on is not admitted by that
constraint; consequently the Total Withdrawals count over any history the
program produces is 0, even when withdraw records are present. -/
theorem withdrawal_count_zero (b0 : Int) (rs : List Request) :
    (∀ t ∈ (runRequests { balance := b0, transactions := [] } rs).transactions,
      transactionTypeCheck t.transaction_type = true) ∧
    transactionTypeCheck "withdrawal" = false ∧
    totalWithdrawalsCount (runRequests { balance := b0, transactions := [] } rs).transactions = 0 := by
  have htypes := runRequests_types rs { balance := b0, transactions := [] } (by simp)
  exact ⟨htypes, by decide, totalWithdrawals_of_check _ htypes⟩

/-- Witness for `withdrawal_count_zero`: a run with one deposit and one
withdrawal yields a history with a withdraw record whose Total Withdrawals
count is 0. -/
theorem withdrawal_count_zero_witness :
    totalWithdrawalsCount (runRequests { balance := 0, transactions := [] }
      [Request.deposit 50 "", Request.withdraw 20 ""]).transactions = 0 ∧
    (runRequests { balance := 0, transactions := [] }
      [Request.deposit 50 "", Request.withdraw 20 ""]).transactions.map
        (fun t => t.transaction_type) = ["deposit", "withdraw"] := by
  refine ⟨(withdrawal_count_zero 0 [Request.deposit 50 "", Request.withdraw 20 ""]).2.2, ?_⟩
  decide

/-- A concurrent deposit call in flight, broken into its three store round
trips as `handleTransaction` performs them: read the balance, write the new
balance computed from the value read, insert the record.  `pc` is the next
round trip (0 = read, 1 = write balance, 2 = insert record, 3 = done) and
`readBal` the thread-local value the read captured. -/
structure DepositThread where
  amount : Int
  description : String
  pc : Nat
  readBal : Int
  deriving DecidableEq

/-- A deposit call that has not yet touched the store. -/
def initDeposit (a : Int) (d : String) : DepositThread :=
  { amount := a, description := d, pc := 0, readBal := 0 }

/-- One store round trip of a deposit call, mirroring `handleTransaction`
(part_000): the balance fetch, the unguarded balance update computed from
the fetched value, and the record insert. -/
def depositStep (s : Store) (t : DepositThread) : Store × DepositThread :=
  match t.pc with
  | 0 => (s, { t with readBal := s.balance, pc := 1 })
  | 1 => ({ s with balance := t.readBal + t.amount }, { t with pc := 2 })
  | 2 =>
    let record : TxRecord :=
      { amount := t.amount
        transaction_type := "deposit"
        description := if t.description = "" then "Deposit transaction" else t.description
        balance_after := t.readBal + t.amount }
    ({ s with transactions := s.transactions ++ [record] }, { t with pc := 3 })
  | _ => (s, t)

/-- Run the round trip of the scheduled thread (a schedule entry naming no
live thread is a no-op). -/
def schedStep (s : Store) (ts : List DepositThread) (i : Nat) : Store × List DepositThread :=
  match ts[i]? with
  | none => (s, ts)
  | some t =>
    let r := depositStep s t
    (r.1, ts.set i r.2)

/-- Run a whole interleaving: the schedule lists, in order, which thread
performs its next store round trip. -/
def runSched (s : Store) (ts : List DepositThread) : List Nat → Store × List DepositThread
  | [] => (s, ts)
  | i :: rest =>
    let r := schedStep s ts i
    runSched r.1 r.2 rest

/-- Counterexample to C9: two concurrent deposits of 50 on balance 0, under
the interleaving in which both calls read before either writes, finish with
a stored balance of 50 — not 0 + 2·50 — although both calls completed and
two records were inserted; both calls read the same pre-mutation balance and
both wrote a balance based on it. -/
theorem interleaved_deposits_counterexample :
    (runSched { balance := 0, transactions := [] }
      [initDeposit 50 "", initDeposit 50 ""] [0, 1, 0, 1, 0, 1]).1.balance = 50 ∧
    (runSched { balance := 0, transactions := [] }
      [initDeposit 50 "", initDeposit 50 ""] [0, 1, 0, 1, 0, 1]).1.transactions.length = 2 ∧
    (50 : Int) ≠ 0 + 2 * 50 := by
  refine ⟨rfl, rfl, by decide⟩

/-- A fully serial run of one deposit call through the round-trip machine
coincides with the sequential `handleTransaction` deposit. -/
lemma depositThread_serial (a : Int) (d : String) (s : Store) :
    (runSched s [initDeposit a d] [0, 0, 0]).1 =
      (handleTransaction s.balance TxType.deposit a d allOk s).1 := by
  simp [runSched, schedStep, depositStep, initDeposit, ht_deposit]

/-- C9 amended: N deposits of amount `a` executed sequentially (each call's
three store round trips complete before the next call starts) finish with
balance `B0 + N·a` and exactly N records; the implementation gives no such
guarantee under interleaving, since nothing stops two calls from reading the
same pre-mutation balance and both writing a balance based on it. -/
theorem sequential_deposits_conserve (b0 a : Int) (d : String) (n : Nat) :
    (runRequests { balance := b0, transactions := [] }
      (List.replicate n (Request.deposit a d))).balance = b0 + (n : Int) * a ∧
    (runRequests { balance := b0, transactions := [] }
      (List.replicate n (Request.deposit a d))).transactions.length = n := by
  suffices hgen : ∀ n : Nat, ∀ s : Store,
      (runRequests s (List.replicate n (Request.deposit a d))).balance =
        s.balance + (n : Int) * a ∧
      (runRequests s (List.replicate n (Request.deposit a d))).transactions.length =
        s.transactions.length + n by
    have h := hgen n { balance := b0, transactions := [] }
    simpa using h
  intro n
  induction n with
  | zero => intro s; simp [runRequests]
  | succ k ih =>
    intro s
    rw [List.replicate_succ]
    simp only [runRequests, applyRequest, ht_deposit]
    have h := ih { balance := s.balance + a,
                   transactions := s.transactions ++
                     [{ amount := a, transaction_type := "deposit",
                        description := if d = "" then "Deposit transaction" else d,
                        balance_after := s.balance + a }] }
    obtain ⟨h1, h2⟩ := h
    constructor
    · rw [h1]
      push_cast
      ring
    · rw [h2]
      simp
      omega

/-- The editable fields of the `profiles` row (src/unnamed/part_004). -/
structure ProfileRow where
  name : String
  phone : String
  account_type : String
  balance : Int
  deriving DecidableEq

/-- The Profile page's edit form state (part_004 lines 102-106). -/
structure EditForm where
  name : String
  phone : String
  account_type : String
  deriving DecidableEq

/-- The CHECK constraint on `profiles.account_type`
(src/unnamed/part_005 line 7): only `savings` and `current` are admitted. -/
def accountTypeCheck (s : String) : Bool :=
  s == "savings" || s == "current"

/-- The options the Profile page's account-type select offers
(part_004 lines 314-316). -/
def accountTypeOptions : List String :=
  ["savings", "current", "fixed"]

/-- The profiles update issued by `handleSaveProfile` (part_004 lines
158-165), with the table's CHECK constraint applied by the store: a row
violating the constraint is rejected, the update errors and the stored row
is unchanged.  The boolean result reports whether the store returned an
error. -/
def updateProfiles (row : ProfileRow) (f : EditForm) : ProfileRow × Bool :=
  let updated : ProfileRow :=
    { row with name := f.name, phone := f.phone, account_type := f.account_type }
  if accountTypeCheck f.account_type then (updated, false) else (row, true)

/-- Outcome of a profile save: the success toast or the error toast. -/
inductive SaveOutcome where
  | saved
  | failed
  deriving DecidableEq

/-- The `handleSaveProfile` handler of the Profile page (part_004 lines
154-189): it issues the update and reports an error toast when the store
returns an error, leaving the profile as it was. -/
def handleSaveProfile (row : ProfileRow) (f : EditForm) : ProfileRow × SaveOutcome :=
  let r := updateProfiles row f
  if r.2 then (row, SaveOutcome.failed) else (r.1, SaveOutcome.saved)

/-- C10: the Profile page's edit form offers the `fixed` account type, but a
save with `account_type = "fixed"` violates the profiles table's CHECK
constraint: the store returns an error and the stored profile is unchanged. -/
theorem profile_fixed_save_fails (row : ProfileRow) (f : EditForm)
    (h : f.account_type = "fixed") :
    "fixed" ∈ accountTypeOptions ∧
    accountTypeCheck f.account_type = false ∧
    handleSaveProfile row f = (row, SaveOutcome.failed) := by
  refine ⟨by decide, ?_, ?_⟩
  · simp [accountTypeCheck, h]
  · simp [handleSaveProfile, updateProfiles, accountTypeCheck, h]

/-- Witness for `profile_fixed_save_fails` at a concrete profile and form. -/
theorem profile_fixed_save_fails_witness :
    handleSaveProfile
      { name := "A", phone := "1", account_type := "savings", balance := 100 }
      { name := "A", phone := "1", account_type := "fixed" } =
      ({ name := "A", phone := "1", account_type := "savings", balance := 100 },
       SaveOutcome.failed) := by
  exact (profile_fixed_save_fails
    { name := "A", phone := "1", account_type := "savings", balance := 100 }
    { name := "A", phone := "1", account_type := "fixed" } rfl).2.2
